import Mathlib

/-!
Shallow embedding of the stemi orchestration core: the job registry,
status synchronizer, submission gateway and deletion endpoint of
`src/main.py`, the remote worker client of `src/runpod_client.py`, and
the artifact-store client of `src/supabase_integration.py`.

Machine time (`datetime.now()`) is modelled as a `Nat` supplied by the
caller; raw bytes as `List Nat`; JSON dicts as structures holding the
fields that the embedded code actually reads.
-/

namespace Stemi

/-- Equality on `Except` values is decidable when it is on both sides. -/
instance {ε α : Type} [DecidableEq ε] [DecidableEq α] : DecidableEq (Except ε α)
  | .error a, .error b =>
    if h : a = b then .isTrue (congrArg Except.error h)
    else .isFalse (fun hh => h (Except.error.inj hh))
  | .error _, .ok _ => .isFalse Except.noConfusion
  | .ok _, .error _ => .isFalse Except.noConfusion
  | .ok a, .ok b =>
    if h : a = b then .isTrue (congrArg Except.ok h)
    else .isFalse (fun hh => h (Except.ok.inj hh))

/-- Job status enum, `main.py` lines 37-42. -/
inductive JobStatus where
  | submitted
  | in_queue
  | in_progress
  | completed
  | failed
deriving DecidableEq, Repr

/-- The `status_response["output"]` JSON object, holding the keys that
`main.py` reads (`stem_urls`, `stems`, `storage_type`); `extra` stands
for any other keys and matters only for the dict's Python truthiness. -/
structure RunPodOutput where
  stem_urls : Option (List (String × String)) := none
  stems : Option (List (String × String)) := none
  storage_type : Option String := none
  extra : List String := []
deriving DecidableEq, Repr

/-- The default `{}` of `status_response.get("output", {})`. -/
def RunPodOutput.empty : RunPodOutput := {}

/-- Python truthiness of the output dict: `{}` is falsy, any key makes
it truthy. -/
def RunPodOutput.truthy (o : RunPodOutput) : Bool :=
  o.stem_urls.isSome || o.stems.isSome || o.storage_type.isSome || !o.extra.isEmpty

/-- The `status_response` dict as consumed by the synchronizer: the
`error`, `status` and `output` keys (absent key = `none`). -/
structure StatusResponse where
  error : Option String := none
  status : Option String := none
  output : Option RunPodOutput := none
deriving DecidableEq, Repr

/-- Result of the HTTP GET inside `RunPodClient.get_job_status`: either
a response carrying a status code and JSON body, or a raised `requests`
exception (timeout, connection error, ...). -/
inductive PollHttp where
  | resp (status_code : Nat) (body : StatusResponse)
  | exn (msg : String)
deriving DecidableEq, Repr

namespace RunPodClient

/-- `RunPodClient.get_job_status`, `runpod_client.py` lines 137-161: a
200 response returns its JSON body; any other status code yields an
error dict; any exception is caught and returned as an error dict.
The method never raises. -/
def get_job_status : PollHttp → StatusResponse
  | .resp code body =>
    if code = 200 then body
    else { error := some ("Status API error: " ++ toString code) }
  | .exn msg => { error := some msg }

/-- Shape of an HTTP request issued through the `requests` library.
`timeout := none` models a call made without a `timeout=` argument,
i.e. an unbounded wait. -/
structure HttpRequest where
  method : String
  url : String
  timeout : Option Nat
deriving DecidableEq, Repr

/-- `self.base_url`, `runpod_client.py` line 24. -/
def base_url (endpoint_id : String) : String :=
  "https://api.runpod.ai/v2/" ++ endpoint_id

/-- The GET issued by `get_job_status` (`runpod_client.py` 148-151):
no `timeout=` argument is passed. -/
def status_request (endpoint_id job_id : String) : HttpRequest :=
  { method := "GET", url := base_url endpoint_id ++ "/status/" ++ job_id,
    timeout := none }

/-- The POST issued by `separate_stems_async` (`runpod_client.py`
118-122): no `timeout=` argument is passed. -/
def run_request (endpoint_id : String) : HttpRequest :=
  { method := "POST", url := base_url endpoint_id ++ "/run", timeout := none }

/-- The POST issued by `separate_stems_sync` (`runpod_client.py`
70-75): carries `timeout=timeout` (default 300). -/
def runsync_request (endpoint_id : String) (timeout : Nat) : HttpRequest :=
  { method := "POST", url := base_url endpoint_id ++ "/runsync",
    timeout := some timeout }

end RunPodClient

/-- `RunPodJob`, `main.py` lines 44-54. -/
structure RunPodJob where
  job_id : String
  runpod_job_id : String
  stems : List String
  status : JobStatus
  created_at : Nat
  completed_at : Option Nat
  result : Option RunPodOutput
  error : Option String
  supabase_urls : Option (List (String × String))
deriving DecidableEq, Repr

/-- `RunPodJob.__init__` field defaults, `main.py` lines 45-54. -/
def RunPodJob.init (job_id runpod_job_id : String) (stems : List String)
    (now : Nat) : RunPodJob :=
  { job_id, runpod_job_id, stems, status := .submitted, created_at := now,
    completed_at := none, result := none, error := none, supabase_urls := none }

/-- The artifact-store object as Python sees it: the set of method names
that `class SupabaseStemStorage` defines (`supabase_integration.py`
lines 14-128), plus the behaviour an `upload_stems_from_bytes` method
would have if the class defined one (attribute resolution is dynamic;
a missing name raises `AttributeError` at the call site). -/
structure Storage where
  methods : List String
  upload_stems_from_bytes : String → List (String × String) →
    Except String (List (String × String))

/-- The methods defined by `class SupabaseStemStorage` in
`supabase_integration.py`.  Note there is no `upload_stems_from_bytes`,
so the function field is never reached (see `legacyUploadAttempt`); it
is given an arbitrary total value. -/
def supabaseStemStorage : Storage :=
  { methods := ["__init__", "_ensure_bucket_exists", "upload_stems",
                "get_stem_urls", "delete_stems", "get_signed_url"],
    upload_stems_from_bytes := fun _ _ => .ok [] }

/-- The Supabase configuration visible to `sync_runpod_jobs`: the
module flag `SUPABASE_AVAILABLE` and the global `supabase_storage`
(`none` when initialization failed or the import was missing). -/
structure SupabaseCfg where
  available : Bool
  storage : Option Storage

/-- The call `supabase_storage.upload_stems_from_bytes(job.job_id,
stem_files)` at `main.py` line 142: Python raises `AttributeError`
when the receiver's class does not define the attribute. -/
def legacyUploadAttempt (st : Storage) (job_id : String)
    (stem_files : List (String × String)) :
    Except String (List (String × String)) :=
  if st.methods.contains "upload_stems_from_bytes" then
    st.upload_stems_from_bytes job_id stem_files
  else
    .error "AttributeError: 'SupabaseStemStorage' object has no attribute 'upload_stems_from_bytes'"

/-- The publish part of the `COMPLETED` branch, `main.py` lines
118-149: the `supabase_urls` the job ends up with.  Lines 119-122 copy
the handler-provided URLs; lines 124-149 are the legacy base64 path,
whose failure is caught and logged (lines 147-149), leaving the field
as it was. -/
def completedUrls (cfg : SupabaseCfg) (job : RunPodJob)
    (result : RunPodOutput) : Option (List (String × String)) :=
  if result.truthy && result.stem_urls.isSome then
    result.stem_urls
  else if cfg.available && cfg.storage.isSome && result.truthy &&
      result.stems.isSome && !(result.stems.getD []).isEmpty &&
      result.storage_type == some "base64" then
    match cfg.storage with
    | some st =>
        match legacyUploadAttempt st job.job_id (result.stems.getD []) with
        | .ok urls => some urls
        | .error _ => job.supabase_urls   -- logged, job not failed
    | none => job.supabase_urls
  else
    job.supabase_urls

/-- The per-job body of the synchronizer loop, `main.py` lines 97-156,
applied to the `status_response` already produced by
`RunPodClient.get_job_status` (which never raises, so the `except` at
lines 155-156 is unreachable from the poll call itself).  `now` models
`datetime.now()` at this cycle. -/
def syncJob (cfg : SupabaseCfg) (now : Nat) (job : RunPodJob)
    (status_response : StatusResponse) : RunPodJob :=
  match status_response.error with
  | some e =>
      -- lines 100-104: any "error" key in the response marks the job FAILED
      { job with status := .failed, error := some e, completed_at := some now }
  | none =>
      let runpod_status := status_response.status
      if runpod_status = some "IN_QUEUE" then
        { job with status := .in_queue }
      else if runpod_status = some "IN_PROGRESS" then
        { job with status := .in_progress }
      else if runpod_status = some "COMPLETED" then
        let result := status_response.output.getD RunPodOutput.empty
        { job with
          status := .completed, completed_at := some now, result := some result,
          supabase_urls := completedUrls cfg job result }
      else if runpod_status = some "FAILED" then
        { job with
          status := .failed,
          error := some (status_response.error.getD "Unknown error"),
          completed_at := some now }
      else
        job

/-- `job.status in [SUBMITTED, IN_QUEUE, IN_PROGRESS]`, `main.py` 93-94. -/
def isPendingStatus : JobStatus → Bool
  | .submitted | .in_queue | .in_progress => true
  | .completed | .failed => false

/-- The terminal statuses, `COMPLETED` and `FAILED`. -/
def isTerminalStatus : JobStatus → Bool
  | .completed | .failed => true
  | .submitted | .in_queue | .in_progress => false

/-- The pending snapshot taken at the top of each cycle, `main.py`
lines 92-94. -/
def pendingJobs (jobs : List RunPodJob) : List RunPodJob :=
  jobs.filter (fun j => isPendingStatus j.status)

/-- What one cycle does to a single registry entry: pending jobs are
polled (`get_job_status`) and stepped, terminal jobs are untouched. -/
def cycleStep (cfg : SupabaseCfg) (now : Nat) (poll : String → PollHttp)
    (j : RunPodJob) : RunPodJob :=
  if isPendingStatus j.status then
    syncJob cfg now j (RunPodClient.get_job_status (poll j.runpod_job_id))
  else j

/-- One full synchronizer cycle over the registry, `main.py` 92-156. -/
def syncCycle (cfg : SupabaseCfg) (now : Nat) (poll : String → PollHttp)
    (jobs : List RunPodJob) : List RunPodJob :=
  jobs.map (cycleStep cfg now poll)

/-- Storage path built by `SupabaseStemStorage.upload_stems`,
`supabase_integration.py` line 53. -/
def stemStoragePath (job_id stem_name : String) : String :=
  "stems/" ++ job_id ++ "/" ++ stem_name ++ ".wav"

/-- `SupabaseStemStorage.upload_stems`, `supabase_integration.py` lines
37-79.  `upload` models the outcome of the Supabase upload call for a
given storage path (`.error` for a raised exception or an error
result, which the source logs and re-raises); `public_url` models
`get_public_url`.  Returns the stem names for which an upload was
attempted, and either the collected name-to-URL map or the first error
(the re-raise aborts the loop, discarding `public_urls`). -/
def uploadStems (upload : String → Except String Unit)
    (public_url : String → String) (job_id : String) :
    List (String × String) → List String × Except String (List (String × String))
  | [] => ([], .ok [])
  | (stem_name, _file_path) :: rest =>
    let storage_path := stemStoragePath job_id stem_name
    match upload storage_path with
    | .error e => ([stem_name], .error e)
    | .ok _ =>
      let (attempted, res) := uploadStems upload public_url job_id rest
      (stem_name :: attempted,
       res.map (fun urls => (stem_name, public_url storage_path) :: urls))

/-- Server state relevant to the query and deletion endpoints: the
module-level `active_jobs` registry, the contents of `OUTPUT_DIR`
(job_id to filenames), the artifact store (one entry `(job_id, name)`
per object under `stems/{job_id}/`), and whether the global
`supabase_storage` is set. -/
structure AppState where
  active_jobs : List (String × RunPodJob)
  output_dirs : List (String × List String)
  storage_files : List (String × String)
  storage_present : Bool
deriving DecidableEq, Repr

/-- The registry lookup of `GET /jobs/{job_id}`, `main.py` lines
346-349: only the found / not-found distinction is modelled. -/
def get_job_status_route (st : AppState) (job_id : String) :
    Except (Nat × String) RunPodJob :=
  match st.active_jobs.lookup job_id with
  | none => .error (404, "Job not found")
  | some j => .ok j

/-- `SupabaseStemStorage.delete_stems`, `supabase_integration.py` lines
101-116: lists the objects under `stems/{job_id}/` and issues a single
batched `remove(file_paths)` call when the listing is non-empty.
Returns the new store contents and the list of remove calls issued,
each carrying its batch of paths. -/
def delete_stems (storage_files : List (String × String)) (job_id : String) :
    List (String × String) × List (List String) :=
  let names := (storage_files.filter (fun e => e.1 == job_id)).map (fun e => e.2)
  let file_paths := names.map (fun n => "stems/" ++ job_id ++ "/" ++ n)
  if file_paths.isEmpty then (storage_files, [])
  else (storage_files.filter (fun e => !(e.1 == job_id)), [file_paths])

/-- `DELETE /jobs/{job_id}`, `main.py` lines 401-426.  The endpoint is
keyed on the existence of `OUTPUT_DIR/job_id`: absent means 404; when
present, the directory's files and the directory are removed, Supabase
cleanup is best-effort, and the handler reports success.  The
`active_jobs` registry is never touched.  Returns the new state, the
artifact-store remove calls issued, and the HTTP outcome. -/
def delete_job (st : AppState) (job_id : String) :
    AppState × List (List String) × Except (Nat × String) String :=
  match st.output_dirs.lookup job_id with
  | none => (st, [], .error (404, "Job not found"))
  | some _files =>
    let st1 := { st with
      output_dirs := st.output_dirs.filter (fun e => !(e.1 == job_id)) }
    if st1.storage_present then
      ({ st1 with storage_files := (delete_stems st1.storage_files job_id).1 },
       (delete_stems st1.storage_files job_id).2,
       .ok ("Job " ++ job_id ++ " deleted successfully"))
    else
      (st1, [], .ok ("Job " ++ job_id ++ " deleted successfully"))

/-- Python's `str.startswith`: a character-level prefix test. -/
def pyStartsWith (s pre : String) : Bool := pre.data.isPrefixOf s.data

/-- The success payload of `POST /separate`, `main.py` lines 280-285. -/
structure SubmitResponse where
  job_id : String
  status : String
  runpod_job_id : String
deriving DecidableEq, Repr

/-- Observable outcome of one `/separate` request: the HTTP response
(`.error` is `HTTPException(status_code, detail)`), the payload staged
to the temporary file (if any was written), whether that file still
exists when the handler returns, whether the remote submit call was
made, and the Job record registered (if any). -/
structure SeparateOutcome where
  response : Except (Nat × String) SubmitResponse
  staged : Option (List Nat)
  file_exists_after : Bool
  submit_called : Bool
  job_created : Option RunPodJob
deriving DecidableEq, Repr

/-- Default stem list, `main.py` line 250. -/
def defaultStems : List String := ["vocals", "bass", "drums", "other"]

/-- `POST /separate`, `main.py` lines 230-297, reduced to the
observables above.  `submit` models `separate_stems_async` (`.ok
handle`, or the message of a raised exception).  `content` is the
uploaded payload: the source never checks it for emptiness — the only
validation is the content-type check at line 246. -/
def separate_audio (runpod_available client_present : Bool)
    (content_type _filename : String) (content : List Nat)
    (stems : Option String) (job_id : String) (now : Nat)
    (submit : Except String String) : SeparateOutcome :=
  if runpod_available = false then
    { response := .error (503, "RunPod SDK not installed - this endpoint requires RunPod integration"),
      staged := none, file_exists_after := false, submit_called := false,
      job_created := none }
  else if client_present = false then
    { response := .error (503, "RunPod service not available - check credentials"),
      staged := none, file_exists_after := false, submit_called := false,
      job_created := none }
  else if pyStartsWith content_type "audio/" = false then
    { response := .error (400, "File must be an audio file"),
      staged := none, file_exists_after := false, submit_called := false,
      job_created := none }
  else
    let stem_list := match stems with
      | some s => if s = "" then defaultStems
                  else (s.splitOn ",").map (fun t => t.trim)
      | none => defaultStems
    -- lines 262-265: the payload (even empty) is staged to disk before submit
    match submit with
    | .ok handle =>
      let job := RunPodJob.init job_id handle stem_list now
      { response := .ok { job_id, status := "submitted", runpod_job_id := handle },
        staged := some content, file_exists_after := false, submit_called := true,
        job_created := some job }
    | .error e =>
      -- lines 287-291: file removed, HTTPException(500) raised, no job created
      { response := .error (500, "Failed to submit to RunPod: " ++ e),
        staged := some content, file_exists_after := false, submit_called := true,
        job_created := none }

/-- Rank of a status along Submitted, Queued, Running, terminal. -/
def statusRank : JobStatus → Nat
  | .submitted => 0
  | .in_queue => 1
  | .in_progress => 2
  | .completed => 3
  | .failed => 3

/-- The phase a poll response drives a pending job to, if any: `none`
when the response leaves the job untouched (no error key and a missing
or unrecognized status string). -/
def reportRank (r : StatusResponse) : Option Nat :=
  match r.error with
  | some _ => some 3
  | none =>
    if r.status = some "IN_QUEUE" then some 1
    else if r.status = some "IN_PROGRESS" then some 2
    else if r.status = some "COMPLETED" then some 3
    else if r.status = some "FAILED" then some 3
    else none

/-- Evolution of a single job across synchronizer cycles: the statuses
a reader sees after each cycle, given for each cycle its clock and the
`status_response` that `get_job_status` produced for this job. -/
def observe (cfg : SupabaseCfg) (j : RunPodJob) :
    List (Nat × StatusResponse) → List JobStatus
  | [] => []
  | (now, resp) :: rest =>
    let j1 := if isPendingStatus j.status then syncJob cfg now j resp else j
    j1.status :: observe cfg j1 rest

/-- No observed regression: ranks never decrease along the list and a
terminal status never changes. -/
def noRegression : List JobStatus → Bool
  | [] => true
  | [_] => true
  | a :: b :: rest =>
    decide (statusRank a ≤ statusRank b) &&
      (!isTerminalStatus a || decide (a = b)) &&
      noRegression (b :: rest)

/-- The remote's recognized reports are phase-monotone, starting from
rank `r`. -/
def reportsMonotoneFrom (r : Nat) : List (Nat × StatusResponse) → Bool
  | [] => true
  | (_, resp) :: rest =>
    match reportRank resp with
    | none => reportsMonotoneFrom r rest
    | some r2 => decide (r ≤ r2) && reportsMonotoneFrom r2 rest

/-- Data-model invariant: `completedAt` is set iff the status is
terminal (spec section 3). -/
def completedAtInv (j : RunPodJob) : Prop :=
  j.completed_at.isSome = isTerminalStatus j.status

instance (j : RunPodJob) : Decidable (completedAtInv j) := by
  unfold completedAtInv
  infer_instance

/-- A Supabase configuration with no storage configured. -/
def cfgNone : SupabaseCfg := ⟨false, none⟩

/-- The production Supabase configuration: the integration imported and
the `SupabaseStemStorage` object constructed. -/
def cfgSupabase : SupabaseCfg := ⟨true, some supabaseStemStorage⟩

/-- A concrete in-flight job, used for concrete evaluations. -/
def sampleJob : RunPodJob :=
  { job_id := "j1", runpod_job_id := "rp1", stems := ["vocals", "drums"],
    status := .in_progress, created_at := 3, completed_at := none,
    result := none, error := none, supabase_urls := none }

/-- A concrete job already in a terminal state. -/
def doneJob : RunPodJob :=
  { sampleJob with status := .completed, completed_at := some 5 }

/-- A concrete legacy-mode worker output: base64 stem bytes, no
handler-side URLs. -/
def legacyOut : RunPodOutput :=
  { stems := some [("vocals", "QUJD")], storage_type := some "base64" }

/-- A concrete server state: job "j1" registered, its output directory
present, three artifacts in the store. -/
def sampleState : AppState :=
  { active_jobs := [("j1", doneJob)],
    output_dirs := [("j1", ["vocals.wav"])],
    storage_files := [("j1", "vocals.wav"), ("j1", "drums.wav"), ("j1", "bass.wav")],
    storage_present := true }

/-- A concrete server state where job "j1" is registered but has no
output directory (the usual situation for RunPod jobs, whose stems are
never written under `OUTPUT_DIR`). -/
def noDirState : AppState :=
  { active_jobs := [("j1", doneJob)], output_dirs := [],
    storage_files := [("j1", "vocals.wav")], storage_present := true }

/-- A concrete upload oracle that fails on the bass stem only. -/
def failingUpload : String → Except String Unit :=
  fun p => if p = "stems/j1/bass.wav" then .error "upload failed" else .ok ()

/-- A concrete `get_public_url` model. -/
def samplePublicUrl : String → String :=
  fun p => "https://supabase.example/storage/" ++ p

/-- Three stems to upload, in order. -/
def sampleStemFiles : List (String × String) :=
  [("vocals", "/tmp/v.wav"), ("bass", "/tmp/b.wav"), ("drums", "/tmp/d.wav")]

end Stemi

namespace Stemi

theorem pending_not_terminal {s : JobStatus} (h : isPendingStatus s = true) :
    isTerminalStatus s = false := by
  cases s <;> simp_all [isPendingStatus, isTerminalStatus]

theorem terminal_not_pending {s : JobStatus} (h : isTerminalStatus s = true) :
    isPendingStatus s = false := by
  cases s <;> simp_all [isPendingStatus, isTerminalStatus]

/-- On a response with status `COMPLETED` and no error key, the
synchronizer step marks the job completed, stamps `completed_at` and
stores the output, whatever the publish sub-branches do. -/
theorem syncJob_completed_fields (cfg : SupabaseCfg) (now : Nat)
    (job : RunPodJob) (resp : StatusResponse) (h1 : resp.error = none)
    (h2 : resp.status = some "COMPLETED") :
    (syncJob cfg now job resp).status = .completed ∧
    (syncJob cfg now job resp).completed_at = some now ∧
    (syncJob cfg now job resp).result = some (resp.output.getD RunPodOutput.empty) := by
  obtain ⟨err, stat, out⟩ := resp
  simp only at h1 h2
  subst h1 h2
  simp only [syncJob]
  rw [if_neg (by decide), if_neg (by decide)]
  simp

/-- A response carrying an `error` key drives the job to `FAILED`
with the message stored and `completed_at` stamped (lines 100-104). -/
theorem syncJob_error_resp (cfg : SupabaseCfg) (now : Nat) (job : RunPodJob)
    (resp : StatusResponse) (e : String) (h : resp.error = some e) :
    syncJob cfg now job resp =
      { job with status := .failed, error := some e, completed_at := some now } := by
  obtain ⟨err, stat, out⟩ := resp
  simp only at h
  subst h
  rfl

/-- A response with no error key and an unrecognized (or missing)
status string leaves the job exactly as it was. -/
theorem syncJob_unrecognized (cfg : SupabaseCfg) (now : Nat) (job : RunPodJob)
    (resp : StatusResponse) (h : reportRank resp = none) :
    syncJob cfg now job resp = job := by
  obtain ⟨err, stat, out⟩ := resp
  cases err with
  | some e => simp [reportRank] at h
  | none =>
    simp only [reportRank] at h
    simp only [syncJob]
    split_ifs at h with h1 h2 h3 h4
    rw [if_neg h1, if_neg h2, if_neg h3, if_neg h4]

/-- The rank a pending job lands on is exactly the rank the response
reports, whenever the response is recognized. -/
theorem statusRank_syncJob (cfg : SupabaseCfg) (now : Nat) (job : RunPodJob)
    (resp : StatusResponse) (r : Nat) (h : reportRank resp = some r) :
    statusRank (syncJob cfg now job resp).status = r := by
  obtain ⟨err, stat, out⟩ := resp
  cases err with
  | some e =>
    simp only [reportRank] at h
    have hr := Option.some.inj h
    subst hr
    rfl
  | none =>
    simp only [reportRank] at h
    simp only [syncJob]
    split_ifs at h with h1 h2 h3 h4
    · have hr := Option.some.inj h; subst hr; rw [if_pos h1]; rfl
    · have hr := Option.some.inj h; subst hr; rw [if_neg h1, if_pos h2]; rfl
    · have hr := Option.some.inj h; subst hr
      rw [if_neg h1, if_neg h2, if_pos h3]
      rfl
    · have hr := Option.some.inj h; subst hr
      rw [if_neg h1, if_neg h2, if_neg h3, if_pos h4]
      rfl

/-- A synchronizer step on a pending job with unset `completed_at`
re-establishes the `completedAt ⇔ terminal` invariant. -/
theorem completedAtInv_syncJob (cfg : SupabaseCfg) (now : Nat)
    (job : RunPodJob) (resp : StatusResponse)
    (hpend : isPendingStatus job.status = true)
    (hca : job.completed_at = none) :
    completedAtInv (syncJob cfg now job resp) := by
  obtain ⟨err, stat, out⟩ := resp
  cases err with
  | some e => simp [syncJob, completedAtInv, isTerminalStatus]
  | none =>
    simp only [syncJob]
    split_ifs with h1 h2 h3 h4
    · simp [completedAtInv, isTerminalStatus, hca]
    · simp [completedAtInv, isTerminalStatus, hca]
    · simp [completedAtInv, isTerminalStatus]
    · simp [completedAtInv, isTerminalStatus]
    · simp [completedAtInv, hca, pending_not_terminal hpend]

/-- Phase-monotonicity from a lower starting rank is implied by
phase-monotonicity from a higher one. -/
theorem reportsMonotoneFrom_mono {l : List (Nat × StatusResponse)}
    {r r' : Nat} (hrr : r ≤ r')
    (h : reportsMonotoneFrom r' l = true) :
    reportsMonotoneFrom r l = true := by
  induction l generalizing r r' with
  | nil => rfl
  | cons x rest ih =>
    obtain ⟨n, resp⟩ := x
    cases hr : reportRank resp with
    | none =>
      simp only [reportsMonotoneFrom, hr] at h ⊢
      exact ih hrr h
    | some r2 =>
      simp only [reportsMonotoneFrom, hr, Bool.and_eq_true,
        decide_eq_true_eq] at h ⊢
      exact ⟨le_trans hrr h.1, h.2⟩

/-- A terminal job is left untouched by a cycle. -/
theorem cycleStep_terminal (cfg : SupabaseCfg) (now : Nat)
    (poll : String → PollHttp) (j : RunPodJob)
    (h : isTerminalStatus j.status = true) :
    cycleStep cfg now poll j = j := by
  unfold cycleStep
  rw [terminal_not_pending h]
  simp

/-- A terminal job is excluded from the pending snapshot. -/
theorem terminal_not_in_pendingJobs (jobs : List RunPodJob) (j : RunPodJob)
    (h : isTerminalStatus j.status = true) :
    j ∉ pendingJobs jobs := by
  simp [pendingJobs, List.mem_filter, terminal_not_pending h]

/-- `upload_stems` aborts at the first failing upload: the stems after
it are never attempted and the accumulated URLs are discarded. -/
theorem uploadStems_abort (upload : String → Except String Unit)
    (public_url : String → String) (job_id : String)
    (pre : List (String × String)) (x : String × String)
    (post : List (String × String)) (e : String)
    (hpre : ∀ p ∈ pre, upload (stemStoragePath job_id p.1) = .ok ())
    (hfail : upload (stemStoragePath job_id x.1) = .error e) :
    uploadStems upload public_url job_id (pre ++ x :: post) =
      (pre.map Prod.fst ++ [x.1], .error e) := by
  induction pre with
  | nil =>
    obtain ⟨nm, fp⟩ := x
    simp only [List.nil_append, uploadStems, List.map_nil]
    rw [hfail]
  | cons p rest ih =>
    obtain ⟨pn, pf⟩ := p
    have hp : upload (stemStoragePath job_id pn) = .ok () :=
      hpre (pn, pf) (by simp)
    simp only [List.cons_append, uploadStems, List.map_cons]
    rw [hp]
    simp [ih (fun q hq => hpre q (by simp [hq])), Except.map]

/-- When the handler supplied no URLs and the publish attempt raises,
`supabase_urls` keeps its old value. -/
theorem completedUrls_error (cfg : SupabaseCfg) (st : Storage)
    (job : RunPodJob) (out : RunPodOutput) (e : String)
    (hst : cfg.storage = some st) (h4 : out.stem_urls = none)
    (hatt : legacyUploadAttempt st job.job_id (out.stems.getD []) = .error e) :
    completedUrls cfg job out = job.supabase_urls := by
  unfold completedUrls
  rw [if_neg (by simp [h4])]
  split_ifs with h2
  · simp [hst, hatt]
  · rfl

/-- Closed form of a synchronizer step on a clean `COMPLETED` response. -/
theorem syncJob_completed_eq (cfg : SupabaseCfg) (now : Nat)
    (job : RunPodJob) (resp : StatusResponse) (h1 : resp.error = none)
    (h2 : resp.status = some "COMPLETED") :
    syncJob cfg now job resp =
      { job with
        status := .completed, completed_at := some now,
        result := some (resp.output.getD RunPodOutput.empty),
        supabase_urls :=
          completedUrls cfg job (resp.output.getD RunPodOutput.empty) } := by
  obtain ⟨err, stat, out⟩ := resp
  simp only at h1 h2
  subst h1 h2
  simp only [syncJob]
  rw [if_neg (by decide), if_neg (by decide)]
  simp

/-- `delete_stems` issues at most one remove call. -/
theorem delete_stems_calls_length (storage_files : List (String × String))
    (job_id : String) :
    (delete_stems storage_files job_id).2.length ≤ 1 := by
  simp only [delete_stems]
  split_ifs <;> simp

/-- Looking up a key after filtering out all entries with that key
yields nothing. -/
theorem lookup_filter_self (l : List (String × List String)) (k : String) :
    (l.filter (fun e => !(e.1 == k))).lookup k = none := by
  induction l with
  | nil => rfl
  | cons x rest ih =>
    obtain ⟨a, b⟩ := x
    by_cases hak : a = k
    · simp [List.filter, hak, ih]
    · have h1 : (a == k) = false := by simp [hak]
      have h2 : (k == a) = false := by
        simp only [beq_eq_false_iff_ne, ne_eq]
        exact fun hk => hak hk.symm
      simp [List.filter, h1, List.lookup, h2, ih]

/-- Claim C1 (counterexample): a pending job whose poll raises a
transient network timeout is not left unchanged — the synchronizer
records status Failed, stores the message in `error` and stamps
`completed_at`, contradicting the claim that such a job's status,
error and completedAt fields stay untouched and that a transient
polling error is never recorded as Failed. -/
theorem transient_poll_error_mutates_job_cex :
    (syncJob cfgNone 7 sampleJob
        (RunPodClient.get_job_status (.exn "Connection timed out"))).status =
      .failed ∧
    (syncJob cfgNone 7 sampleJob
        (RunPodClient.get_job_status (.exn "Connection timed out"))).completed_at =
      some 7 ∧
    (syncJob cfgNone 7 sampleJob
        (RunPodClient.get_job_status (.exn "Connection timed out"))).error =
      some "Connection timed out" := by
  decide

/-- Claim C1 (amended): a timeout or transient network error during
poll is caught inside `get_job_status` and returned as an error dict;
the synchronizer then records the job as Failed, storing the message
in `error` and stamping `completed_at`, instead of leaving the job
unchanged for a retry.  A non-200 poll response is treated the same
way with the "Status API error" message. -/
theorem transient_poll_error_recorded_as_failed (cfg : SupabaseCfg)
    (now : Nat) (job : RunPodJob) (msg : String) (code : Nat)
    (body : StatusResponse) (hcode : code ≠ 200) :
    syncJob cfg now job (RunPodClient.get_job_status (.exn msg)) =
      { job with
        status := .failed, error := some msg, completed_at := some now } ∧
    syncJob cfg now job (RunPodClient.get_job_status (.resp code body)) =
      { job with
        status := .failed,
        error := some ("Status API error: " ++ toString code),
        completed_at := some now } := by
  constructor
  · exact syncJob_error_resp cfg now job _ msg rfl
  · refine syncJob_error_resp cfg now job _ _ ?_
    simp [RunPodClient.get_job_status, hcode]

/-- Witness for C1's amended theorem at a concrete input. -/
theorem transient_poll_error_recorded_as_failed_w :
    syncJob cfgNone 7 sampleJob (RunPodClient.get_job_status (.exn "timeout")) =
      { sampleJob with
        status := .failed, error := some "timeout",
        completed_at := some 7 } :=
  (transient_poll_error_recorded_as_failed cfgNone 7 sampleJob "timeout" 500
    {} (by decide)).1

/-- Claim C4 (counterexample): an empty payload with an acceptable
content type is not rejected — it is staged to disk, the remote submit
call is made, and a Job record is created, contradicting the claim
that empty payloads are rejected with ValidationError before any side
effect. -/
theorem empty_payload_not_rejected_cex :
    (separate_audio true true "audio/wav" "song.wav" [] none "job-1" 0
        (.ok "rp-9")).response =
      .ok { job_id := "job-1", status := "submitted", runpod_job_id := "rp-9" } ∧
    (separate_audio true true "audio/wav" "song.wav" [] none "job-1" 0
        (.ok "rp-9")).staged = some [] ∧
    (separate_audio true true "audio/wav" "song.wav" [] none "job-1" 0
        (.ok "rp-9")).submit_called = true ∧
    (separate_audio true true "audio/wav" "song.wav" [] none "job-1" 0
        (.ok "rp-9")).job_created =
      some (RunPodJob.init "job-1" "rp-9" defaultStems 0) := by
  decide

/-- Claim C4 (amended): only the content kind is validated: a request
whose content type does not start with "audio/" is rejected with
HTTP 400 before any side effect — nothing staged, no remote submit
call, no Job record created.  Payload emptiness is never checked: an
empty payload of acceptable content kind proceeds to staging and
submission. -/
theorem content_type_validated_before_side_effects
    (content_type filename : String) (content : List Nat)
    (stems : Option String) (job_id : String) (now : Nat)
    (submit : Except String String)
    (h : pyStartsWith content_type "audio/" = false) :
    separate_audio true true content_type filename content stems job_id now
        submit =
      { response := .error (400, "File must be an audio file"),
        staged := none, file_exists_after := false, submit_called := false,
        job_created := none } := by
  unfold separate_audio
  simp [h]

/-- Witness for C4's amended theorem at a concrete input. -/
theorem content_type_validated_before_side_effects_w :
    separate_audio true true "text/plain" "notes.txt" [1, 2] none "job-2" 0
        (.ok "rp-3") =
      { response := .error (400, "File must be an audio file"),
        staged := none, file_exists_after := false, submit_called := false,
        job_created := none } :=
  content_type_validated_before_side_effects "text/plain" "notes.txt" [1, 2]
    none "job-2" 0 (.ok "rp-3") (by decide)

/-- Claim C6: a job in a terminal status is excluded from the pending
snapshot (so no poll call is issued for it) and a synchronizer cycle
leaves it completely unchanged — status, result, error, completed_at
and supabase_urls included. -/
theorem terminal_jobs_excluded_and_unchanged (cfg : SupabaseCfg) (now : Nat)
    (poll : String → PollHttp) (jobs : List RunPodJob) (j : RunPodJob)
    (h : isTerminalStatus j.status = true) :
    cycleStep cfg now poll j = j ∧ j ∉ pendingJobs jobs :=
  ⟨cycleStep_terminal cfg now poll j h, terminal_not_in_pendingJobs jobs j h⟩

/-- Witness for C6 at a concrete terminal job. -/
theorem terminal_jobs_excluded_and_unchanged_w :
    cycleStep cfgNone 9 (fun _ => .exn "down") doneJob = doneJob ∧
    doneJob ∉ pendingJobs [sampleJob, doneJob] :=
  terminal_jobs_excluded_and_unchanged cfgNone 9 (fun _ => .exn "down")
    [sampleJob, doneJob] doneJob (by decide)

/-- Claim C8: when the remote submit call fails, no Job record is
created and the error is surfaced synchronously as HTTP 500 "Failed to
submit to RunPod: ..." (the code's realization of
RemoteSubmissionError); the staged temporary file is gone on the
failure exit path as well as on the success exit path. -/
theorem submit_failure_no_job_and_file_cleanup
    (content_type filename : String) (content : List Nat)
    (stems : Option String) (job_id : String) (now : Nat) (e handle : String)
    (h : pyStartsWith content_type "audio/" = true) :
    (separate_audio true true content_type filename content stems job_id now
        (.error e)).job_created = none ∧
    (separate_audio true true content_type filename content stems job_id now
        (.error e)).response =
      .error (500, "Failed to submit to RunPod: " ++ e) ∧
    (separate_audio true true content_type filename content stems job_id now
        (.error e)).staged = some content ∧
    (separate_audio true true content_type filename content stems job_id now
        (.error e)).file_exists_after = false ∧
    (separate_audio true true content_type filename content stems job_id now
        (.ok handle)).file_exists_after = false := by
  unfold separate_audio
  simp [h]

/-- Witness for C8 at a concrete input. -/
theorem submit_failure_no_job_and_file_cleanup_w :
    (separate_audio true true "audio/mpeg" "a.mp3" [9] none "job-3" 1
        (.error "RunPod API error: 500")).job_created = none ∧
    (separate_audio true true "audio/mpeg" "a.mp3" [9] none "job-3" 1
        (.error "RunPod API error: 500")).response =
      .error (500, "Failed to submit to RunPod: " ++ "RunPod API error: 500") ∧
    (separate_audio true true "audio/mpeg" "a.mp3" [9] none "job-3" 1
        (.error "RunPod API error: 500")).staged = some [9] ∧
    (separate_audio true true "audio/mpeg" "a.mp3" [9] none "job-3" 1
        (.error "RunPod API error: 500")).file_exists_after = false ∧
    (separate_audio true true "audio/mpeg" "a.mp3" [9] none "job-3" 1
        (.ok "rp-7")).file_exists_after = false :=
  submit_failure_no_job_and_file_cleanup "audio/mpeg" "a.mp3" [9] none "job-3"
    1 "RunPod API error: 500" "rp-7" (by decide)

/-- Claim C9: the poll (`get_job_status`) and asynchronous submit
(`separate_stems_async`) requests are issued with no timeout argument
(`requests` then waits indefinitely), while the synchronous variant
does carry one — contradicting the claim that every submit and poll
call carries a bounded per-call timeout. -/
theorem runpod_poll_and_submit_have_no_timeout
    (endpoint_id job_id : String) (t : Nat) :
    (RunPodClient.status_request endpoint_id job_id).timeout = none ∧
    (RunPodClient.run_request endpoint_id).timeout = none ∧
    (RunPodClient.runsync_request endpoint_id t).timeout = some t :=
  ⟨rfl, rfl, rfl⟩

/-- Claim C3 (counterexample): deleting job "j1", which has a registry
record and three previously uploaded artifacts, reports success — yet
a subsequent query still finds the job (its registry record is not
removed), and the artifact store receives one batched remove call, not
one call per artifact. -/
theorem delete_job_leaves_registry_cex :
    (delete_job sampleState "j1").2.2 = .ok "Job j1 deleted successfully" ∧
    get_job_status_route (delete_job sampleState "j1").1 "j1" = .ok doneJob ∧
    (delete_job sampleState "j1").2.1 =
      [["stems/j1/vocals.wav", "stems/j1/drums.wav", "stems/j1/bass.wav"]] := by
  decide

/-- Claim C3 (amended): deletion is keyed on the job's output
directory, not on the registry.  When `OUTPUT_DIR/job_id` exists, the
handler reports success, removes the directory, issues at most one
batched artifact-store remove call (the batch `delete_stems` computes;
none when the listing is empty or no storage is configured), and
leaves `active_jobs` untouched — so a registered id is still found by
subsequent queries.  When the directory is missing the handler returns
404 and performs no side effect, even if the id is registered. -/
theorem delete_job_dir_keyed (st st2 : AppState) (job_id : String)
    (files : List String)
    (hdir : st.output_dirs.lookup job_id = some files)
    (hdir2 : st2.output_dirs.lookup job_id = none) :
    (delete_job st job_id).2.2 =
      .ok ("Job " ++ job_id ++ " deleted successfully") ∧
    (delete_job st job_id).1.active_jobs = st.active_jobs ∧
    (delete_job st job_id).1.output_dirs.lookup job_id = none ∧
    (delete_job st job_id).2.1 =
      (if st.storage_present then (delete_stems st.storage_files job_id).2
       else []) ∧
    (delete_job st job_id).2.1.length ≤ 1 ∧
    delete_job st2 job_id = (st2, [], .error (404, "Job not found")) := by
  have h404 : delete_job st2 job_id = (st2, [], .error (404, "Job not found")) := by
    unfold delete_job
    rw [hdir2]
  refine ⟨?_, ?_, ?_, ?_, ?_, h404⟩ <;>
    simp only [delete_job, hdir] <;>
    by_cases hsp : st.storage_present <;>
    simp [hsp, lookup_filter_self, delete_stems_calls_length]

/-- Witness for C3's amended theorem at concrete states. -/
theorem delete_job_dir_keyed_w :
    (delete_job sampleState "j1").2.2 =
      .ok ("Job " ++ "j1" ++ " deleted successfully") ∧
    (delete_job sampleState "j1").1.active_jobs = sampleState.active_jobs ∧
    (delete_job sampleState "j1").1.output_dirs.lookup "j1" = none ∧
    (delete_job sampleState "j1").2.1 =
      (if sampleState.storage_present then
        (delete_stems sampleState.storage_files "j1").2
       else []) ∧
    (delete_job sampleState "j1").2.1.length ≤ 1 ∧
    delete_job noDirState "j1" = (noDirState, [], .error (404, "Job not found")) :=
  delete_job_dir_keyed sampleState noDirState "j1" ["vocals.wav"]
    (by decide) (by decide)

/-- Claim C7: `completedAt` is set iff the status is terminal: the
invariant holds for a freshly created job and is preserved by every
synchronizer cycle over a registry satisfying it, so it holds at every
point between synchronizer steps. -/
theorem completedAt_iff_terminal_invariant
    (job_id runpod_job_id : String) (stems : List String) (now0 : Nat)
    (cfg : SupabaseCfg) (now : Nat) (poll : String → PollHttp)
    (jobs : List RunPodJob) (hinv : ∀ j ∈ jobs, completedAtInv j) :
    completedAtInv (RunPodJob.init job_id runpod_job_id stems now0) ∧
    ∀ j2 ∈ syncCycle cfg now poll jobs, completedAtInv j2 := by
  constructor
  · simp [completedAtInv, RunPodJob.init, isTerminalStatus]
  · intro j2 hj2
    simp only [syncCycle, List.mem_map] at hj2
    obtain ⟨j, hj, rfl⟩ := hj2
    have hi : j.completed_at.isSome = isTerminalStatus j.status := hinv j hj
    by_cases hp : isPendingStatus j.status = true
    · have hca : j.completed_at = none := by
        have hfalse : j.completed_at.isSome = false := by
          rw [hi, pending_not_terminal hp]
        cases hval : j.completed_at with
        | none => rfl
        | some v => rw [hval] at hfalse; simp at hfalse
      unfold cycleStep
      rw [if_pos hp]
      exact completedAtInv_syncJob cfg now j _ hp hca
    · unfold cycleStep
      rw [if_neg hp]
      exact hi

/-- Witness for C7 at a concrete fresh job and a concrete cycle. -/
theorem completedAt_iff_terminal_invariant_w :
    completedAtInv (RunPodJob.init "j9" "rp9" ["vocals"] 2) ∧
    ∀ j2 ∈ syncCycle cfgNone 5
        (fun _ => .resp 200 { status := some "COMPLETED" }) [sampleJob],
      completedAtInv j2 :=
  completedAt_iff_terminal_invariant "j9" "rp9" ["vocals"] 2 cfgNone 5
    (fun _ => .resp 200 { status := some "COMPLETED" }) [sampleJob]
    (by decide)

/-- Claim C10: `class SupabaseStemStorage` defines no
`upload_stems_from_bytes`, so the orchestrator's legacy publish call
raises AttributeError; the exception is caught and logged, the job's
status stays Completed with `completed_at` stamped and the result
stored, and `supabase_urls` keeps its previous value — it is never set
on this path. -/
theorem legacy_upload_method_missing (now : Nat) (job : RunPodJob)
    (resp : StatusResponse) (out : RunPodOutput)
    (stems : List (String × String))
    (h1 : resp.error = none) (h2 : resp.status = some "COMPLETED")
    (h3 : resp.output = some out) (h4 : out.stem_urls = none)
    (_h5 : out.stems = some stems) (_h6 : stems ≠ [])
    (_h7 : out.storage_type = some "base64") :
    supabaseStemStorage.methods.contains "upload_stems_from_bytes" = false ∧
    syncJob cfgSupabase now job resp =
      { job with
        status := .completed, completed_at := some now,
        result := some out } := by
  have hmem : supabaseStemStorage.methods.contains "upload_stems_from_bytes"
      = false := by decide
  refine ⟨hmem, ?_⟩
  rw [syncJob_completed_eq cfgSupabase now job resp h1 h2]
  have hout : resp.output.getD RunPodOutput.empty = out := by rw [h3]; rfl
  rw [hout]
  rw [completedUrls_error cfgSupabase supabaseStemStorage job out
    "AttributeError: 'SupabaseStemStorage' object has no attribute 'upload_stems_from_bytes'"
    rfl h4 (by unfold legacyUploadAttempt; rw [if_neg (by decide)])]

/-- Witness for C10 at a concrete legacy-mode completion. -/
theorem legacy_upload_method_missing_w :
    supabaseStemStorage.methods.contains "upload_stems_from_bytes" = false ∧
    syncJob cfgSupabase 9 sampleJob ⟨none, some "COMPLETED", some legacyOut⟩ =
      { sampleJob with
        status := .completed, completed_at := some 9,
        result := some legacyOut } :=
  legacy_upload_method_missing 9 sampleJob
    ⟨none, some "COMPLETED", some legacyOut⟩ legacyOut [("vocals", "QUJD")]
    rfl rfl rfl rfl rfl (by decide) rfl

/-- Claim C2 (counterexample): with three artifacts where the second
upload fails, `upload_stems` attempts only the first two — the third
is never attempted — and re-raises the error, discarding the URL of
the successful first upload instead of returning a partial map. -/
theorem upload_stems_aborts_cex :
    uploadStems failingUpload samplePublicUrl "j1" sampleStemFiles =
      (["vocals", "bass"], .error "upload failed") ∧
    "drums" ∉ (uploadStems failingUpload samplePublicUrl "j1" sampleStemFiles).1 := by
  decide

/-- Claim C2 (amended): if an artifact's upload fails, `upload_stems`
logs and re-raises: the remaining artifacts are not attempted and the
already-collected URLs are discarded, so no partial map is recorded.
In the synchronizer the publish failure is caught: the job remains
Completed with `completed_at` stamped and its result stored,
`supabase_urls` keeps its prior value, and no error escalates to job
failure. -/
theorem publish_failure_absorbed_but_aborts :
    (∀ (upload : String → Except String Unit) (public_url : String → String)
        (job_id : String) (pre : List (String × String)) (x : String × String)
        (post : List (String × String)) (e : String),
      (∀ p ∈ pre, upload (stemStoragePath job_id p.1) = .ok ()) →
      upload (stemStoragePath job_id x.1) = .error e →
      uploadStems upload public_url job_id (pre ++ x :: post) =
        (pre.map Prod.fst ++ [x.1], .error e)) ∧
    (∀ (cfg : SupabaseCfg) (st : Storage) (now : Nat) (job : RunPodJob)
        (resp : StatusResponse) (out : RunPodOutput) (e : String),
      cfg.storage = some st → resp.error = none →
      resp.status = some "COMPLETED" → resp.output = some out →
      out.stem_urls = none →
      legacyUploadAttempt st job.job_id (out.stems.getD []) = .error e →
      syncJob cfg now job resp =
        { job with
          status := .completed, completed_at := some now,
          result := some out }) := by
  constructor
  · exact fun upload public_url job_id pre x post e hpre hfail =>
      uploadStems_abort upload public_url job_id pre x post e hpre hfail
  · intro cfg st now job resp out e hst h1 h2 h3 h4 hatt
    rw [syncJob_completed_eq cfg now job resp h1 h2]
    have hout : resp.output.getD RunPodOutput.empty = out := by rw [h3]; rfl
    rw [hout, completedUrls_error cfg st job out e hst h4 hatt]

/-- Witness for C2's amended theorem at concrete inputs. -/
theorem publish_failure_absorbed_but_aborts_w :
    uploadStems failingUpload samplePublicUrl "j1"
        ([("vocals", "/tmp/v.wav")] ++
          ("bass", "/tmp/b.wav") :: [("drums", "/tmp/d.wav")]) =
      ([("vocals", "/tmp/v.wav")].map Prod.fst ++ ["bass"],
        .error "upload failed") ∧
    syncJob cfgSupabase 9 sampleJob ⟨none, some "COMPLETED", some legacyOut⟩ =
      { sampleJob with
        status := .completed, completed_at := some 9,
        result := some legacyOut } :=
  ⟨publish_failure_absorbed_but_aborts.1 failingUpload samplePublicUrl "j1"
      [("vocals", "/tmp/v.wav")] ("bass", "/tmp/b.wav")
      [("drums", "/tmp/d.wav")] "upload failed" (by decide) (by decide),
    publish_failure_absorbed_but_aborts.2 cfgSupabase supabaseStemStorage 9
      sampleJob ⟨none, some "COMPLETED", some legacyOut⟩ legacyOut
      "AttributeError: 'SupabaseStemStorage' object has no attribute 'upload_stems_from_bytes'"
      rfl rfl rfl rfl rfl
      (by unfold legacyUploadAttempt; rw [if_neg (by decide)])⟩

/-- Claim C5 (counterexample): starting from a fresh job, a remote
that reports IN_PROGRESS and then IN_QUEUE makes readers observe
Running followed by Queued — a state regression, contradicting the
claim that no regression is observed regardless of which statuses the
remote reports. -/
theorem status_regression_cex :
    observe cfgNone (RunPodJob.init "j1" "rp1" ["vocals"] 0)
        [(1, { status := some "IN_PROGRESS" }), (2, { status := some "IN_QUEUE" })] =
      [.in_progress, .in_queue] ∧
    noRegression ((RunPodJob.init "j1" "rp1" ["vocals"] 0).status ::
      observe cfgNone (RunPodJob.init "j1" "rp1" ["vocals"] 0)
        [(1, { status := some "IN_PROGRESS" }), (2, { status := some "IN_QUEUE" })]) =
      false := by
  decide

/-- Claim C5 (amended): the synchronizer mirrors the latest recognized
remote report, so the observed status sequence of a job is free of
regressions provided the remote's recognized reports are
phase-monotone; when the remote reports an earlier phase (Queued while
the job is Running) the regression is recorded and observed (see
counterexample). -/
theorem no_regression_when_remote_monotone (cfg : SupabaseCfg)
    (j : RunPodJob) (trace : List (Nat × StatusResponse))
    (h : reportsMonotoneFrom (statusRank j.status) trace = true) :
    noRegression (j.status :: observe cfg j trace) = true := by
  induction trace generalizing j with
  | nil => rfl
  | cons x rest ih =>
    obtain ⟨now, resp⟩ := x
    simp only [observe]
    by_cases hp : isPendingStatus j.status = true
    · rw [if_pos hp]
      cases hr : reportRank resp with
      | none =>
        rw [syncJob_unrecognized cfg now j resp hr]
        have h2 : reportsMonotoneFrom (statusRank j.status) rest = true := by
          simp only [reportsMonotoneFrom, hr] at h
          exact h
        simp [noRegression, ih j h2]
      | some r2 =>
        have hconj : statusRank j.status ≤ r2 ∧
            reportsMonotoneFrom r2 rest = true := by
          simp only [reportsMonotoneFrom, hr, Bool.and_eq_true,
            decide_eq_true_eq] at h
          exact h
        have hrank := statusRank_syncJob cfg now j resp r2 hr
        have ihh := ih (syncJob cfg now j resp) (by rw [hrank]; exact hconj.2)
        have hterm : isTerminalStatus j.status = false := pending_not_terminal hp
        simp only [noRegression, Bool.and_eq_true, decide_eq_true_eq]
        exact ⟨⟨by rw [hrank]; exact hconj.1, by simp [hterm]⟩, ihh⟩
    · rw [if_neg hp]
      have h2 : reportsMonotoneFrom (statusRank j.status) rest = true := by
        cases hr : reportRank resp with
        | none =>
          simp only [reportsMonotoneFrom, hr] at h
          exact h
        | some r2 =>
          simp only [reportsMonotoneFrom, hr, Bool.and_eq_true,
            decide_eq_true_eq] at h
          exact reportsMonotoneFrom_mono h.1 h.2
      simp [noRegression, ih j h2]

/-- Witness for C5's amended theorem on a concrete monotone trace. -/
theorem no_regression_when_remote_monotone_w :
    noRegression ((RunPodJob.init "j5" "rp5" ["vocals"] 0).status ::
      observe cfgNone (RunPodJob.init "j5" "rp5" ["vocals"] 0)
        [(1, { status := some "IN_QUEUE" }), (2, { status := some "IN_PROGRESS" }),
          (3, { status := some "COMPLETED" })]) = true :=
  no_regression_when_remote_monotone cfgNone
    (RunPodJob.init "j5" "rp5" ["vocals"] 0)
    [(1, { status := some "IN_QUEUE" }), (2, { status := some "IN_PROGRESS" }),
      (3, { status := some "COMPLETED" })] (by decide)

end Stemi
